import Mathlib

/-!
Verification of the logpiper repository's single script
`src/test-python/app.py`, a heartbeat emitter: an unbounded loop that
increments a counter, classifies it by divisibility (8, then 12, then 5)
and emits exactly one status line per iteration, sleeping 3 seconds
between iterations.  The script is embedded shallowly below: output is a
list of events (line emissions and sleeps), the global `random` module is
modelled as a stream of pending draws carried in the loop state, and the
`while True` guard is kept explicit as `loopCond`.
-/

/-- The two output streams the script writes to (`print(...)` vs
`print(..., file=sys.stderr)`). -/
inductive StdStream where
  | stdout
  | stderr
deriving DecidableEq

/-- A single emitted line: which stream it went to and its text. -/
structure Line where
  stream : StdStream
  text : String
deriving DecidableEq

/-- Observable events of the script: emitting a line, or `time.sleep`
with a number of seconds. -/
inductive Event where
  | emit (line : Line)
  | sleep (seconds : Nat)
deriving DecidableEq

/-- Whether an event is a line emission. -/
def Event.isEmit : Event → Bool
  | .emit _ => true
  | .sleep _ => false

/-- `"❌ ImportError: No module named 'requests'"` from line 14. -/
def importErrorText : String :=
  "❌ ImportError: No module named \x27requests\x27"

/-- `"✅ Database connection successful"` from line 16. -/
def dbSuccessText : String := "✅ Database connection successful"

/-- `f"📊 Processing data batch {random.randint(1, 100)}"` from line 18. -/
def batchText (r : Nat) : String := "📊 Processing data batch " ++ toString r

/-- `f"[INFO] Application running - iteration {count}"` from line 20. -/
def heartbeatText (n : Nat) : String :=
  "[INFO] Application running - iteration " ++ toString n

/-- `random.randint(lo, hi)`: a uniform draw on the inclusive range
`[lo, hi]`, modelled as reducing one raw entropy draw into the range. -/
def randint (lo hi draw : Nat) : Nat := lo + draw % (hi - lo + 1)

/-- The if/elif/else chain of lines 13-20, at counter value `count`,
with `draws` the pending raw draws of the `random` module.  Returns the
emitted line and the remaining draws (a draw is consumed only by the
`count % 5 == 0` branch, which calls `random.randint(1, 100)`). -/
def iterStep (count : Nat) (draws : List Nat) : Line × List Nat :=
  if count % 8 = 0 then
    (⟨StdStream.stderr, importErrorText⟩, draws)
  else if count % 12 = 0 then
    (⟨StdStream.stdout, dbSuccessText⟩, draws)
  else if count % 5 = 0 then
    (⟨StdStream.stdout, batchText (randint 1 100 (draws.headD 0))⟩, draws.tail)
  else
    (⟨StdStream.stdout, heartbeatText count⟩, draws)

/-- The loop's mutable state: the counter `count` (line 9) and the
pending draws of the `random` module. -/
structure LoopState where
  count : Nat
  draws : List Nat
deriving DecidableEq

/-- State at process start: `count = 0` (line 9), with the given
entropy stream. -/
def initState (draws : List Nat) : LoopState := ⟨0, draws⟩

/-- The guard of the `while True:` loop (line 10). -/
def loopCond (_ : LoopState) : Bool := true

/-- One pass of the loop body (lines 11-22): increment the counter
first, then run the branch chain at the new value, then
`time.sleep(3)`. -/
def loopBody (s : LoopState) : LoopState × List Event :=
  let count := s.count + 1
  let p := iterStep count s.draws
  (⟨count, p.2⟩, [Event.emit p.1, Event.sleep 3])

/-- `k` passes of the `while True:` loop from state `s`: the final state
and the concatenated events. -/
def run : Nat → LoopState → LoopState × List Event
  | 0, s => (s, [])
  | k + 1, s =>
    if loopCond s then
      let p := loopBody s
      let q := run k p.1
      (q.1, p.2 ++ q.2)
    else (s, [])

/-- The two banner lines printed at lines 6-7, before the loop. -/
def startupEvents : List Event :=
  [Event.emit ⟨StdStream.stdout, "🐍 Starting Python application..."⟩,
   Event.emit ⟨StdStream.stdout, "📁 Project: test-python"⟩]

/-- The whole script's event trace, truncated to `k` loop iterations:
the startup banners followed by the loop's events. -/
def programEvents (k : Nat) (draws : List Nat) : List Event :=
  startupEvents ++ (run k (initState draws)).2

/-! ## Helper lemmas -/

theorem loopBody_events (s : LoopState) :
    (loopBody s).2 =
      [Event.emit (iterStep (s.count + 1) s.draws).1, Event.sleep 3] := rfl

theorem loopBody_state (s : LoopState) :
    (loopBody s).1 = ⟨s.count + 1, (iterStep (s.count + 1) s.draws).2⟩ := rfl

theorem run_succ (k : Nat) (s : LoopState) :
    run (k + 1) s =
      ((run k (loopBody s).1).1, (loopBody s).2 ++ (run k (loopBody s).1).2) := by
  simp [run, loopCond]

theorem run_count (k : Nat) :
    ∀ s : LoopState, ((run k s).1).count = s.count + k := by
  induction k with
  | zero => intro s; simp [run]
  | succ n ih =>
    intro s
    rw [run_succ]
    show ((run n (loopBody s).1).1).count = s.count + (n + 1)
    rw [ih, loopBody_state]
    show s.count + 1 + n = s.count + (n + 1)
    omega

theorem iterStep_draws_of_not_batch (m : Nat) (ds : List Nat)
    (h : m % 8 = 0 ∨ m % 12 = 0 ∨ m % 5 ≠ 0) :
    (iterStep m ds).2 = ds := by
  unfold iterStep
  by_cases h8 : m % 8 = 0
  · simp [h8]
  · by_cases h12 : m % 12 = 0
    · simp [h8, h12]
    · have h5 : m % 5 ≠ 0 := by tauto
      simp [h8, h12, h5]

/-! ## Claims -/

/-- C1: for every counter value n with n % 8 = 0, the emitted line goes to
the standard error stream and is the fixed import-error text, regardless
of whether n is also divisible by 12 or 5: the mod-8 branch has highest
precedence in the if/elif chain. -/
theorem C1_mod8_emits_import_error_on_stderr (n : Nat) (draws : List Nat)
    (h : n % 8 = 0) :
    (iterStep n draws).1 = ⟨StdStream.stderr, importErrorText⟩ := by
  simp [iterStep, h]

theorem C1_witness :
    (iterStep 24 []).1 = ⟨StdStream.stderr, importErrorText⟩ ∧
    (iterStep 40 []).1 = ⟨StdStream.stderr, importErrorText⟩ :=
  ⟨C1_mod8_emits_import_error_on_stderr 24 [] rfl,
   C1_mod8_emits_import_error_on_stderr 40 [] rfl⟩

/-- C2: every loop pass emits exactly one status line, never zero and
never more than one: the body's event list holds exactly one emission,
and k passes emit exactly k lines in total. -/
theorem C2_exactly_one_line_per_iteration (k : Nat) (s : LoopState) :
    ((loopBody s).2.filter Event.isEmit).length = 1 ∧
    ((run k s).2.filter Event.isEmit).length = k := by
  have hone : ∀ t : LoopState, ((loopBody t).2.filter Event.isEmit).length = 1 := by
    intro t; rw [loopBody_events]; rfl
  refine ⟨hone s, ?_⟩
  induction k generalizing s with
  | zero => simp [run]
  | succ n ih =>
    rw [run_succ, List.filter_append, List.length_append, hone, ih]
    omega

/-- C3: for every counter value n with n % 8 ≠ 0 and n % 12 = 0, the
emitted line is the fixed database-success string on standard output. -/
theorem C3_mod12_emits_db_success (n : Nat) (draws : List Nat)
    (h8 : n % 8 ≠ 0) (h12 : n % 12 = 0) :
    (iterStep n draws).1 = ⟨StdStream.stdout, dbSuccessText⟩ := by
  simp [iterStep, h8, h12]

theorem C3_witness :
    (iterStep 12 []).1 = ⟨StdStream.stdout, dbSuccessText⟩ :=
  C3_mod12_emits_db_success 12 [] (by decide) rfl

/-- C4: for every counter value n with n % 8 ≠ 0, n % 12 ≠ 0 and
n % 5 = 0, the emitted line is the batch line on standard output holding
a freshly drawn integer in [1, 100]; the draw is consumed exactly then
(every other branch leaves the entropy stream untouched) and only the
counter and remaining draws persist in the state. -/
theorem C4_mod5_emits_batch_in_range (n : Nat) (draws : List Nat)
    (h8 : n % 8 ≠ 0) (h12 : n % 12 ≠ 0) (h5 : n % 5 = 0) :
    (∃ r, 1 ≤ r ∧ r ≤ 100 ∧
      (iterStep n draws).1 = ⟨StdStream.stdout, batchText r⟩ ∧
      (iterStep n draws).2 = draws.tail) ∧
    ∀ m ds, (m % 8 = 0 ∨ m % 12 = 0 ∨ m % 5 ≠ 0) → (iterStep m ds).2 = ds := by
  refine ⟨⟨randint 1 100 (draws.headD 0), ?_, ?_, ?_, ?_⟩,
    iterStep_draws_of_not_batch⟩
  · unfold randint; omega
  · have hlt : draws.headD 0 % 100 < 100 := Nat.mod_lt _ (by decide)
    unfold randint; omega
  · simp [iterStep, h8, h12, h5]
  · simp [iterStep, h8, h12, h5]

theorem C4_witness :
    (∃ r, 1 ≤ r ∧ r ≤ 100 ∧
      (iterStep 5 [37]).1 = ⟨StdStream.stdout, batchText r⟩ ∧
      (iterStep 5 [37]).2 = ([37] : List Nat).tail) ∧
    ∀ m ds, (m % 8 = 0 ∨ m % 12 = 0 ∨ m % 5 ≠ 0) → (iterStep m ds).2 = ds :=
  C4_mod5_emits_batch_in_range 5 [37] (by decide) (by decide) rfl

/-- C5: for every counter value n matching none of the mod-8, mod-12 or
mod-5 conditions, the emitted line is the generic heartbeat on standard
output and its text holds the literal value of n. -/
theorem C5_default_emits_heartbeat (n : Nat) (draws : List Nat)
    (h8 : n % 8 ≠ 0) (h12 : n % 12 ≠ 0) (h5 : n % 5 ≠ 0) :
    (iterStep n draws).1 = ⟨StdStream.stdout, heartbeatText n⟩ ∧
    heartbeatText n = "[INFO] Application running - iteration " ++ toString n := by
  exact ⟨by simp [iterStep, h8, h12, h5], rfl⟩

theorem C5_witness :
    ((iterStep 1 []).1 = ⟨StdStream.stdout, heartbeatText 1⟩ ∧
     heartbeatText 1 = "[INFO] Application running - iteration " ++ toString 1) ∧
    heartbeatText 1 = "[INFO] Application running - iteration 1" :=
  ⟨C5_default_emits_heartbeat 1 [] (by decide) (by decide) (by decide), rfl⟩

/-- C6: the counter starts at 0 and is incremented by exactly 1 at the
start of every pass before the branch chain is evaluated (the body
classifies at s.count + 1), so after k passes the counter is exactly k,
and the counter strictly increases on every pass. -/
theorem C6_counter_increments_from_zero (k : Nat) (s : LoopState)
    (draws : List Nat) :
    (initState draws).count = 0 ∧
    (loopBody s).1.count = s.count + 1 ∧
    (loopBody s).2 = [Event.emit (iterStep (s.count + 1) s.draws).1, Event.sleep 3] ∧
    ((run k (initState draws)).1).count = k ∧
    s.count < (loopBody s).1.count := by
  refine ⟨rfl, rfl, loopBody_events s, ?_, Nat.lt_succ_self s.count⟩
  rw [run_count]
  exact Nat.zero_add k

/-- C7: the mod-8 (cosmetic error) branch changes no state beyond the
counter increment: the successor state is exactly the old state with the
counter bumped, so every subsequent run from it is what it would be from
that state however reached. -/
theorem C7_error_branch_only_increments_counter (s : LoopState) (k : Nat)
    (h : (s.count + 1) % 8 = 0) :
    (loopBody s).1 = ⟨s.count + 1, s.draws⟩ ∧
    run k (loopBody s).1 = run k ⟨s.count + 1, s.draws⟩ := by
  have hst : (loopBody s).1 = ⟨s.count + 1, s.draws⟩ := by
    rw [loopBody_state, iterStep_draws_of_not_batch _ _ (Or.inl h)]
  exact ⟨hst, by rw [hst]⟩

theorem C7_witness :
    (loopBody ⟨7, []⟩).1 = ⟨8, []⟩ ∧
    run 2 (loopBody ⟨7, []⟩).1 = run 2 ⟨8, []⟩ :=
  C7_error_branch_only_increments_counter ⟨7, []⟩ 2 rfl

/-- C8: the loop guard is identically true (while True), so from every
state the next pass always executes the body: there is always a
successor iteration and the loop never halts of its own accord. -/
theorem C8_no_internal_termination (s : LoopState) (k : Nat) :
    loopCond s = true ∧
    run (k + 1) s =
      ((run k (loopBody s).1).1, (loopBody s).2 ++ (run k (loopBody s).1).2) :=
  ⟨rfl, run_succ k s⟩

/-- C9: every pass ends with time.sleep(3), invoked with the constant 3,
after the single line emission and before the next pass begins. -/
theorem C9_sleep_three_after_emit (s : LoopState) :
    ∃ l, (loopBody s).2 = [Event.emit l, Event.sleep 3] :=
  ⟨(iterStep (s.count + 1) s.draws).1, loopBody_events s⟩

/-- C10: before the first loop pass the script prints exactly two fixed
banner lines to standard output, which precede all per-iteration output
in the trace. -/
theorem C10_startup_banner (k : Nat) (draws : List Nat) :
    programEvents k draws = startupEvents ++ (run k (initState draws)).2 ∧
    startupEvents =
      [Event.emit ⟨StdStream.stdout, "🐍 Starting Python application..."⟩,
       Event.emit ⟨StdStream.stdout, "📁 Project: test-python"⟩] ∧
    startupEvents.length = 2 ∧
    ∀ e ∈ startupEvents, ∃ l, e = Event.emit l ∧ l.stream = StdStream.stdout := by
  refine ⟨rfl, rfl, rfl, ?_⟩
  intro e he
  simp only [startupEvents, List.mem_cons, List.not_mem_nil, or_false] at he
  rcases he with h | h <;> subst h
  · exact ⟨_, rfl, rfl⟩
  · exact ⟨_, rfl, rfl⟩
